import Mathlib

/-!
# Verification of the Vaquill adjudication orchestration engine

Shallow embedding of the round-based adjudication core of the Vaquill
backend (`src/backend/app`): the data model (`models/`), the verdict
orchestrator (`services/verdict_orchestrator.py`), the argument
orchestrator (`services/argument_orchestrator.py`), case CRUD
(`services/case_service.py`) and finalization (`api/cases.py`).

Conventions of the embedding:
* The database session is replaced by an explicit per-case state
  (`CaseState`); `db.commit()` always succeeds, and state mutated before an
  exception is raised stays mutated (operations return the post-state next
  to the `Except` result where the source can raise after a commit).
* The external OpenAI call is replaced by an `OracleOutcome` parameter:
  either the API call raises (`unavailable`) or it returns a response whose
  message content is modelled at the post-`json.loads` stage
  (`Option JObj`, `none` meaning the content string is not valid JSON).
* Python strings are Lean `String`s; slicing `s[:n]` is `String.take n`;
  Python `dict` membership/lookup over the parsed verdict object is
  association-list `List.lookup`.
* Machine timestamps and UUIDs are `Nat` identifiers; they never influence
  control flow in the embedded code.
-/

namespace Vaquill

/-- Evidentiary side; the API schema (`schemas/argument.py`,
`ArgumentBase.side`) validates `side` with pattern `^[AB]$`. -/
inductive Side where
  | A
  | B
deriving DecidableEq, Repr

/-- Processing status of a document (`models/document.py`). -/
inductive DocStatus where
  | pending
  | processing
  | ready
  | failed
deriving DecidableEq, Repr

/-- A document row (`models/document.py`); `full_text` is nullable. -/
structure Document where
  side : Side
  title : String
  file_type : String
  full_text : Option String
  status : DocStatus
deriving DecidableEq, Repr

/-- An argument row (`models/argument.py`). -/
structure Argument where
  round : Nat
  side : Side
  argument_text : String
  submitted_by : Nat
deriving DecidableEq, Repr

/-- A JSON value as it appears inside a parsed verdict object.  Only the
string and numeric shapes are inspected by the source's validation code
(`winner` must equal one of three strings; `confidence_score` is a number);
every other JSON shape (arrays, nested objects, booleans, null) is
collapsed into the opaque constructor `jother`, which the embedded
validation treats exactly as the source treats any non-matching value. -/
inductive JVal where
  | jstr : String → JVal
  | jnum : Rat → JVal
  | jother : JVal
deriving DecidableEq, Repr

/-- A parsed JSON object (the result of `json.loads` on an object
literal), as an association list from field name to value. -/
abbrev JObj := List (String × JVal)

/-- A verdict row (`models/verdict.py`): round number, structured payload,
model identifier and optional token usage. -/
structure VerdictRec where
  round : Nat
  verdict_json : JObj
  model_used : String
  tokens_used : Option Nat
deriving DecidableEq, Repr

/-- Per-case state: the scalar columns of `models/case.py` together with
the case's document, argument and verdict rows.  `status` is kept as a
free string because the column is an unconstrained `String(50)` and
`CaseUpdate.status` accepts any string.  `current_round` is a `Nat`: the
source only ever assigns `0`, `1` or `current_round + 1` to it. -/
structure CaseState where
  title : String
  case_number : String
  case_type : String
  jurisdiction : String
  description : Option String
  created_by : Nat
  status : String
  current_round : Nat
  max_rounds : Nat
  finalized_at : Option Nat
  documents : List Document
  arguments : List Argument
  verdicts : List VerdictRec
deriving DecidableEq, Repr

/-- The response of one oracle (OpenAI chat-completions) call:
`content` is `response.choices[0].message.content` at the post-parse
stage (`none` = the content is not valid JSON, so `json.loads` raises);
`usage` is `response.usage.total_tokens` when a usage attribute exists. -/
structure OracleResponse where
  content : Option JObj
  usage : Option Nat
deriving DecidableEq, Repr

/-- Outcome of attempting the external oracle call: the client call itself
raises (`unavailable`, carrying the exception text), or returns a
response. -/
inductive OracleOutcome where
  | unavailable : String → OracleOutcome
  | success : OracleResponse → OracleOutcome
deriving DecidableEq, Repr

/-! ## Verdict-response validation (`verdict_orchestrator.py:149-179` and
`argument_orchestrator.py:201-210`) -/

/-- `required_fields` of `VerdictOrchestrator.parse_verdict_json`
(`verdict_orchestrator.py:169`); the same list appears inline in
`ArgumentOrchestrator.generate_verdict_with_arguments`
(`argument_orchestrator.py:206`). -/
def required_fields : List String :=
  ["summary", "winner", "confidence_score", "issues", "final_decision",
   "key_evidence_cited"]

/-- The fields of `required_fields` absent from a parsed verdict object
(`[field for field in required_fields if field not in verdict_dict]`). -/
def missing_fields (verdict_dict : JObj) : List String :=
  required_fields.filter (fun f => (verdict_dict.lookup f).isNone)

/-- `verdict_dict['winner'] in ['A', 'B', 'undecided']`: in Python the
looked-up JSON value is compared against the three strings, so any
non-string value compares unequal to all of them. -/
def winner_valid (v : JVal) : Bool :=
  v == JVal.jstr "A" || v == JVal.jstr "B" || v == JVal.jstr "undecided"

/-- `VerdictOrchestrator.parse_verdict_json` (`verdict_orchestrator.py:
149-179`): `json.loads` failure, then missing required fields, then the
winner check.  No check of `confidence_score` is performed. -/
def parse_verdict_json (parsed : Option JObj) : Except String JObj :=
  match parsed with
  | none => .error "Invalid JSON in verdict response"
  | some verdict_dict =>
    if missing_fields verdict_dict ≠ [] then
      .error "Missing required fields in verdict"
    else if !winner_valid ((verdict_dict.lookup "winner").getD JVal.jother) then
      .error "Invalid winner value"
    else
      .ok verdict_dict

/-- The inline validation of the argument-round path
(`argument_orchestrator.py:202-210`): `json.loads` failure, then missing
required fields.  Neither `winner` nor `confidence_score` is checked on
this path. -/
def validate_arguments_path (parsed : Option JObj) : Except String JObj :=
  match parsed with
  | none => .error "Invalid JSON"
  | some verdict_dict =>
    if missing_fields verdict_dict ≠ [] then
      .error "Missing required fields in verdict"
    else
      .ok verdict_dict

/-- Whether a looked-up `confidence_score` value is a number inside
`[0, 1]`.  This predicate appears nowhere in the source; it formalises the
spec's claimed range check. -/
def confidence_ok (v : JVal) : Bool :=
  match v with
  | .jnum q => decide ((0 : Rat) ≤ q) && decide (q ≤ (1 : Rat))
  | _ => false

/-- The spec's claimed validity condition for an oracle response (§4.2):
parses as JSON, has all required fields, winner among the three values,
confidence score within `[0, 1]`. -/
def spec_response_valid (parsed : Option JObj) : Bool :=
  match parsed with
  | none => false
  | some d =>
    missing_fields d == [] &&
    winner_valid ((d.lookup "winner").getD JVal.jother) &&
    confidence_ok ((d.lookup "confidence_score").getD JVal.jother)

/-! ## Row lookup helpers (the `db.query(...).filter(...).first()` calls) -/

/-- `db.query(Argument).filter(case_id, round, side).first()`. -/
def find_argument (args : List Argument) (r : Nat) (s : Side) : Option Argument :=
  args.find? (fun a => a.round == r && a.side == s)

/-- `db.query(Verdict).filter(case_id, round).first()`. -/
def find_verdict (vs : List VerdictRec) (r : Nat) : Option VerdictRec :=
  vs.find? (fun v => v.round == r)

/-- `db.query(Document).filter(case_id, status == 'ready').all()`. -/
def ready_documents (c : CaseState) : List Document :=
  c.documents.filter (fun d => d.status == DocStatus.ready)

/-! ## Initial-verdict path (`verdict_orchestrator.py`) -/

/-- Typed rendering of the distinct exceptions `generate_initial_verdict`
can raise. -/
inductive VerdictError where
  | round0AlreadyExists
  | sideANoDocuments
  | sideBNoDocuments
  | docTextNone
  | generationFailed : String → VerdictError
deriving DecidableEq, Repr

/-- The exception message carried by each `VerdictError`
(`docTextNone` stands for the `TypeError` Python raises when
`doc.full_text[:1000]` is evaluated on a NULL `full_text`). -/
def VerdictError.message : VerdictError → String
  | .round0AlreadyExists => "Round 0 verdict already exists for this case"
  | .sideANoDocuments => "Side A has not submitted any documents"
  | .sideBNoDocuments => "Side B has not submitted any documents"
  | .docTextNone => "TypeError: NoneType object is not subscriptable"
  | .generationFailed msg => "Failed to generate verdict: " ++ msg

/-- The context dict built by `VerdictOrchestrator.fetch_case_context`
(`verdict_orchestrator.py:21-55`); the `arguments` and `previous_verdict`
entries are always `[]`/`None` there and are omitted. -/
structure CaseContext where
  case_row : CaseState
  side_a_docs : List Document
  side_b_docs : List Document
deriving Repr

/-- `VerdictOrchestrator.fetch_case_context`: ready documents split by
side. -/
def fetch_case_context (c : CaseState) : CaseContext :=
  let documents := ready_documents c
  { case_row := c
    side_a_docs := documents.filter (fun d => d.side == Side.A)
    side_b_docs := documents.filter (fun d => d.side == Side.B) }

/-- `VerdictOrchestrator.validate_documents`
(`verdict_orchestrator.py:57-72`): side A checked first, then side B. -/
def validate_documents (context : CaseContext) : Except VerdictError Unit :=
  if context.side_a_docs = [] then .error .sideANoDocuments
  else if context.side_b_docs = [] then .error .sideBNoDocuments
  else .ok ()

/-- Python slicing `s[:n]`: the first `n` characters of the string. -/
def py_slice (s : String) (n : Nat) : String :=
  ⟨s.data.take n⟩

/-- Python `x or 'N/A'` on a nullable string column (`None` and the empty
string are both falsy). -/
def py_or_na (s : Option String) : String :=
  match s with
  | none => "N/A"
  | some t => if t = "" then "N/A" else t

/-- One line of the initial-verdict document summary
(`verdict_orchestrator.py:91-99`): `doc.full_text[:1000]` raises a
`TypeError` when `full_text` is NULL — this path has no `or ''` guard. -/
def initial_doc_lines (docs : List Document) : Except VerdictError (List String) :=
  docs.mapM (fun d =>
    match d.full_text with
    | none => .error .docTextNone
    | some t => .ok ("**" ++ d.title ++ "** (" ++ d.file_type ++ ")\n" ++ py_slice t 1000))

/-- `VerdictOrchestrator.build_verdict_prompt`
(`verdict_orchestrator.py:74-147`). -/
def build_verdict_prompt (context : CaseContext) (round_number : Nat) :
    Except VerdictError String := do
  let c := context.case_row
  let aLines ← initial_doc_lines context.side_a_docs
  let bLines ← initial_doc_lines context.side_b_docs
  let side_a_summary := String.intercalate "\n\n" aLines
  let side_b_summary := String.intercalate "\n\n" bLines
  .ok ("You are an AI judge presiding over a mock trial case.\n\n**CASE INFORMATION:**\n- Title: "
    ++ c.title ++ "\n- Case Number: " ++ c.case_number ++ "\n- Type: " ++ c.case_type
    ++ "\n- Jurisdiction: " ++ c.jurisdiction ++ "\n- Description: " ++ py_or_na c.description
    ++ "\n\n**CURRENT ROUND:** " ++ toString round_number ++ " (Initial Verdict - no arguments yet)"
    ++ "\n\nYour task is to analyze the evidence submitted by both sides and deliver an initial verdict."
    ++ "\n\n**SIDE A EVIDENCE:**\n" ++ side_a_summary
    ++ "\n\n**SIDE B EVIDENCE:**\n" ++ side_b_summary
    ++ "\n\n**INSTRUCTIONS:**\n1. Carefully review all evidence from both sides\n2. Identify the key legal issues\n3. Analyze each issue based on the evidence presented\n4. Determine which side has the stronger case\n5. Provide reasoning for your decision\n6. Assign a confidence score (0.0 to 1.0)"
    ++ "\n\n**IMPORTANT:** You must respond with ONLY a valid JSON object in the following format:"
    ++ "\n\n\x7b\n    \"summary\": \"Brief 2-3 sentence summary of the case\",\n    \"winner\": \"A\" or \"B\" or \"undecided\",\n    \"confidence_score\": 0.85,\n    \"issues\": [\n        \x7b\n            \"issue\": \"Question or issue being decided\",\n            \"finding\": \"Your finding on this issue\",\n            \"reasoning\": \"Detailed reasoning with evidence citations\"\n        \x7d\n    ],\n    \"final_decision\": \"Your final verdict with reasoning (3-5 sentences)\",\n    \"key_evidence_cited\": [\"Document titles that were most important\"]\n\x7d"
    ++ "\n\nProvide your verdict as a JSON object only:")

/-- `VerdictOrchestrator.generate_initial_verdict`
(`verdict_orchestrator.py:182-264`): duplicate-verdict guard, context
fetch, document validation, prompt build, oracle call, response
validation, then the verdict row plus the case-state update
(`status = in_progress`, `current_round = 1`).  Every error path leaves
the case state unchanged, so only the successful result carries the new
state. -/
def generate_initial_verdict (c : CaseState) (oracle : OracleOutcome) :
    Except VerdictError (VerdictRec × CaseState) :=
  if (find_verdict c.verdicts 0).isSome then
    .error .round0AlreadyExists
  else
    match validate_documents (fetch_case_context c) with
    | .error e => .error e
    | .ok _ =>
      match build_verdict_prompt (fetch_case_context c) 0 with
      | .error e => .error e
      | .ok _prompt =>
        match oracle with
        | .unavailable msg => .error (.generationFailed msg)
        | .success resp =>
          match parse_verdict_json resp.content with
          | .error e => .error (.generationFailed e)
          | .ok verdict_dict =>
            let verdict : VerdictRec :=
              { round := 0, verdict_json := verdict_dict,
                model_used := "gpt-4o-mini", tokens_used := resp.usage }
            .ok (verdict,
              { c with verdicts := c.verdicts ++ [verdict],
                       status := "in_progress", current_round := 1 })

/-! ## Argument-round path (`argument_orchestrator.py`) -/

/-- Python `str()` of a JSON value interpolated into the prompt f-string;
the rendering of the opaque `jother` shape is a fixed marker (no claim
depends on it). -/
def JVal.render : JVal → String
  | .jstr s => s
  | .jnum q => toString q
  | .jother => "json"

/-- `(doc.full_text or '')[:800]`
(`argument_orchestrator.py:260,265`): a NULL `full_text` renders as the
empty string, and the excerpt is capped at 800 characters. -/
def doc_excerpt (d : Document) : String :=
  py_slice (d.full_text.getD "") 800

/-- One document line of the argument-round prompt
(`argument_orchestrator.py:259-267`). -/
def doc_line_800 (d : Document) : String :=
  "**" ++ d.title ++ "** (" ++ d.file_type ++ ")\n" ++ doc_excerpt d

/-- The per-side argument block (`argument_orchestrator.py:270-278`). -/
def argument_block (args : List Argument) : String :=
  if args ≠ [] then
    String.intercalate "\n\n"
      (args.enum.map (fun p =>
        "**Argument " ++ toString (p.1 + 1) ++ ":**\n" ++ p.2.argument_text))
  else "No arguments submitted"

/-- The previous-verdict block (`argument_orchestrator.py:281-290`); an
absent previous verdict — or one with an empty (falsy) payload — renders
as the marker string. -/
def previous_verdict_block (previous_verdict : Option VerdictRec) : String :=
  match previous_verdict with
  | none => "N/A"
  | some pv =>
    if pv.verdict_json ≠ [] then
      "\n**Previous Verdict (Round " ++ toString pv.round ++ "):**\n- Winner: "
        ++ (((pv.verdict_json.lookup "winner").map JVal.render).getD "N/A")
        ++ "\n- Confidence: "
        ++ (((pv.verdict_json.lookup "confidence_score").map JVal.render).getD "N/A")
        ++ "\n- Summary: "
        ++ (((pv.verdict_json.lookup "summary").map JVal.render).getD "N/A")
        ++ "\n- Decision: "
        ++ (((pv.verdict_json.lookup "final_decision").map JVal.render).getD "N/A")
        ++ "\n"
    else "N/A"

/-- `ArgumentOrchestrator.build_verdict_with_arguments_prompt`
(`argument_orchestrator.py:233-344`). -/
def build_verdict_with_arguments_prompt (c : CaseState)
    (side_a_docs side_b_docs : List Document)
    (side_a_args side_b_args : List Argument)
    (previous_verdict : Option VerdictRec) (round_number : Nat) : String :=
  let side_a_doc_summary := String.intercalate "\n\n" (side_a_docs.map doc_line_800)
  let side_b_doc_summary := String.intercalate "\n\n" (side_b_docs.map doc_line_800)
  let side_a_arg_text := argument_block side_a_args
  let side_b_arg_text := argument_block side_b_args
  let prev_summary := previous_verdict_block previous_verdict
  "You are an AI judge presiding over a mock trial case. This is Round "
    ++ toString round_number ++ " of arguments.\n\n**CASE INFORMATION:**\n- Title: "
    ++ c.title ++ "\n- Case Number: " ++ c.case_number ++ "\n- Type: " ++ c.case_type
    ++ "\n- Jurisdiction: " ++ c.jurisdiction ++ "\n- Description: " ++ py_or_na c.description
    ++ "\n\n**CURRENT ROUND:** " ++ toString round_number
    ++ "\n\n" ++ prev_summary
    ++ "\n\n**SIDE A EVIDENCE:**\n" ++ side_a_doc_summary
    ++ "\n\n**SIDE A ARGUMENTS (Round " ++ toString round_number ++ "):**\n" ++ side_a_arg_text
    ++ "\n\n**SIDE B EVIDENCE:**\n" ++ side_b_doc_summary
    ++ "\n\n**SIDE B ARGUMENTS (Round " ++ toString round_number ++ "):**\n" ++ side_b_arg_text
    ++ "\n\n**INSTRUCTIONS:**\n1. Review the previous verdict and the new arguments from both sides\n2. Consider how the arguments address or challenge the previous findings\n3. Re-evaluate the evidence in light of the new arguments\n4. Determine if the arguments change your assessment\n5. Update your verdict accordingly\n6. Explain what impact (if any) the arguments had on your decision"
    ++ "\n\n**IMPORTANT:** You must respond with ONLY a valid JSON object in the following format:"
    ++ "\n\n\x7b\n    \"summary\": \"Brief 2-3 sentence summary of how this round affected the case\",\n    \"winner\": \"A\" or \"B\" or \"undecided\",\n    \"confidence_score\": 0.85,\n    \"issues\": [\n        \x7b\n            \"issue\": \"Question or issue being decided\",\n            \"finding\": \"Your finding on this issue\",\n            \"reasoning\": \"Detailed reasoning with evidence and argument citations\"\n        \x7d\n    ],\n    \"final_decision\": \"Your updated verdict with reasoning (3-5 sentences)\",\n    \"key_evidence_cited\": [\"Document and argument references that were most important\"]\n\x7d"
    ++ "\n\nProvide your verdict as a JSON object only:"

/-- `ArgumentOrchestrator.generate_verdict_with_arguments`
(`argument_orchestrator.py:120-231`): gathers ready documents, the
round's arguments and the previous verdict, builds the prompt, calls the
oracle, validates (parse + required fields only), and persists the
verdict row for `round_number`.  The Python comparison
`Verdict.round == round_number - 1` is stated as
`v.round + 1 == round_number` so that `round_number = 0` matches nothing,
exactly as the Python comparison against `-1` does.  Errors are the inner
exception texts, wrapped in the outer `Failed to generate verdict:`
message; every error path leaves the state unchanged. -/
def generate_verdict_with_arguments (c : CaseState) (round_number : Nat)
    (oracle : OracleOutcome) : Except String (VerdictRec × CaseState) :=
  let documents := ready_documents c
  let side_a_docs := documents.filter (fun d => d.side == Side.A)
  let side_b_docs := documents.filter (fun d => d.side == Side.B)
  let round_args := c.arguments.filter (fun a => a.round == round_number)
  let side_a_args := round_args.filter (fun a => a.side == Side.A)
  let side_b_args := round_args.filter (fun a => a.side == Side.B)
  let previous_verdict := c.verdicts.find? (fun v => v.round + 1 == round_number)
  let _prompt := build_verdict_with_arguments_prompt c side_a_docs side_b_docs
    side_a_args side_b_args previous_verdict round_number
  match oracle with
  | .unavailable msg => .error ("Failed to generate verdict: " ++ msg)
  | .success resp =>
    match validate_arguments_path resp.content with
    | .error e => .error ("Failed to generate verdict: " ++ e)
    | .ok verdict_dict =>
      let verdict : VerdictRec :=
        { round := round_number, verdict_json := verdict_dict,
          model_used := "gpt-4o-mini", tokens_used := resp.usage }
      .ok (verdict, { c with verdicts := c.verdicts ++ [verdict] })

/-- Typed rendering of the exceptions `submit_argument` can raise. -/
inductive SubmitError where
  | caseFinalized
  | caseNotReady
  | maxRoundsReached
  | alreadySubmitted : Side → Nat → SubmitError
  | verdictGenFailed : String → SubmitError
deriving DecidableEq, Repr

/-- The dict returned by `ArgumentOrchestrator.submit_argument`
(`argument_orchestrator.py:114-118`). -/
structure SubmitResult where
  argument : Argument
  verdict : Option VerdictRec
  waiting_for_other_side : Bool
deriving DecidableEq, Repr

/-- `ArgumentOrchestrator.submit_argument`
(`argument_orchestrator.py:20-118`).  Checks in source order: finalized,
draft, round limit, duplicate submission; then the argument row is
committed; then, only when both sides now have an argument for the
current round, the verdict is generated and `current_round` is advanced.
The post-state is returned next to the result because the argument commit
survives a later adjudication failure. -/
def submit_argument (c : CaseState) (side : Side) (argument_text : String)
    (user_id : Nat) (oracle : OracleOutcome) :
    Except SubmitError SubmitResult × CaseState :=
  if c.status == "finalized" then (.error .caseFinalized, c)
  else if c.status == "draft" then (.error .caseNotReady, c)
  else if c.current_round ≥ c.max_rounds then (.error .maxRoundsReached, c)
  else
    let current_round := c.current_round
    match find_argument c.arguments current_round side with
    | some _ => (.error (.alreadySubmitted side current_round), c)
    | none =>
      let argument : Argument :=
        { round := current_round, side := side,
          argument_text := argument_text, submitted_by := user_id }
      let c1 := { c with arguments := c.arguments ++ [argument] }
      let side_a_arg := find_argument c1.arguments current_round Side.A
      let side_b_arg := find_argument c1.arguments current_round Side.B
      if side_a_arg.isSome && side_b_arg.isSome then
        match generate_verdict_with_arguments c1 current_round oracle with
        | .ok (verdict, c2) =>
          (.ok { argument := argument, verdict := some verdict,
                 waiting_for_other_side := false },
           { c2 with current_round := current_round + 1 })
        | .error e =>
          (.error (.verdictGenFailed
            ("Failed to generate verdict after arguments: " ++ e)), c1)
      else
        (.ok { argument := argument, verdict := none,
               waiting_for_other_side := true }, c1)

/-! ## Case CRUD (`case_service.py`) and finalization (`api/cases.py`) -/

/-- `CaseCreate` (`schemas/case.py`). -/
structure CaseCreateData where
  title : String
  description : Option String
  case_type : String
  jurisdiction : String
deriving DecidableEq, Repr

/-- `CaseService.create_case` (`case_service.py:30-63`): fresh case in
`draft` with `current_round = 0`, `max_rounds = 5` and no rows. -/
def create_case (data : CaseCreateData) (case_number : String) (user_id : Nat) :
    CaseState :=
  { title := data.title, case_number := case_number,
    case_type := data.case_type, jurisdiction := data.jurisdiction,
    description := data.description, created_by := user_id,
    status := "draft", current_round := 0, max_rounds := 5,
    finalized_at := none, documents := [], arguments := [], verdicts := [] }

/-- `CaseUpdate` (`schemas/case.py:24-30`): every field optional,
including an unconstrained `status` string; `none` = field not supplied
(`exclude_unset`). -/
structure CaseUpdateData where
  title : Option String
  description : Option String
  case_type : Option String
  jurisdiction : Option String
  status : Option String
deriving DecidableEq, Repr

/-- `CaseService.update_case` (`case_service.py:97-130`): ownership check,
then each supplied field is written verbatim onto the case —
`status` included, with no validation of the value or the transition. -/
def update_case (c : CaseState) (data : CaseUpdateData) (user_id : Nat) :
    Option CaseState :=
  if c.created_by ≠ user_id then none
  else some { c with
    title := data.title.getD c.title,
    description := match data.description with
                   | some d => some d
                   | none => c.description,
    case_type := data.case_type.getD c.case_type,
    jurisdiction := data.jurisdiction.getD c.jurisdiction,
    status := data.status.getD c.status }

/-- Typed rendering of the HTTP failures of `finalize_case`
(`api/cases.py:156-223`): 403 access denied, 409 conflict, 422 missing
initial verdict. -/
inductive FinalizeError where
  | accessDenied
  | alreadyFinalized
  | noInitialVerdict
deriving DecidableEq, Repr

/-- `finalize_case` (`api/cases.py:156-223`): ownership, then the
already-finalized conflict, then the round-0-verdict gate, then
`status = finalized` and the `finalized_at` timestamp. -/
def finalize_case (c : CaseState) (user_id : Nat) (now : Nat) :
    Except FinalizeError CaseState :=
  if c.created_by ≠ user_id then .error .accessDenied
  else if c.status == "finalized" then .error .alreadyFinalized
  else if (find_verdict c.verdicts 0).isNone then .error .noInitialVerdict
  else .ok { c with status := "finalized", finalized_at := some now }

/-! ## The per-case state machine and its invariants -/

/-- The other adversarial party. -/
def other_side : Side → Side
  | .A => .B
  | .B => .A

/-- One state-changing operation on a case.  `submit` admits any outcome
(the argument commit survives a later adjudication failure, so the
post-state component of `submit_argument` is the state after the call
whether or not it raised); `initial_verdict`, `finalize` and `update`
change state only on success.  `add_document` models the out-of-scope
document-ingestion collaborator appending a (possibly later ready)
document row; no document operation touches the case scalars. -/
inductive Step : CaseState → CaseState → Prop where
  | initial_verdict (c : CaseState) (oracle : OracleOutcome) (v : VerdictRec)
      (c' : CaseState) :
      generate_initial_verdict c oracle = .ok (v, c') → Step c c'
  | submit (c : CaseState) (side : Side) (text : String) (uid : Nat)
      (oracle : OracleOutcome) (res : Except SubmitError SubmitResult)
      (c' : CaseState) :
      submit_argument c side text uid oracle = (res, c') → Step c c'
  | finalize (c : CaseState) (uid now : Nat) (c' : CaseState) :
      finalize_case c uid now = .ok c' → Step c c'
  | update (c : CaseState) (data : CaseUpdateData) (uid : Nat) (c' : CaseState) :
      update_case c data uid = some c' → Step c c'
  | add_document (c : CaseState) (d : Document) :
      Step c { c with documents := c.documents ++ [d] }

/-- Case states reachable from `create_case` by the operations above. -/
inductive Reachable : CaseState → Prop where
  | created (data : CaseCreateData) (case_number : String) (user_id : Nat) :
      Reachable (create_case data case_number user_id)
  | step (c c' : CaseState) : Reachable c → Step c c' → Reachable c'

/-- Like `Step`, but `update_case` may only be called without a `status`
field (the other updatable fields are free).  Status-changing updates are
the one operation that breaks the verdict-count invariant. -/
inductive StepKS : CaseState → CaseState → Prop where
  | initial_verdict (c : CaseState) (oracle : OracleOutcome) (v : VerdictRec)
      (c' : CaseState) :
      generate_initial_verdict c oracle = .ok (v, c') → StepKS c c'
  | submit (c : CaseState) (side : Side) (text : String) (uid : Nat)
      (oracle : OracleOutcome) (res : Except SubmitError SubmitResult)
      (c' : CaseState) :
      submit_argument c side text uid oracle = (res, c') → StepKS c c'
  | finalize (c : CaseState) (uid now : Nat) (c' : CaseState) :
      finalize_case c uid now = .ok c' → StepKS c c'
  | update (c : CaseState) (data : CaseUpdateData) (uid : Nat) (c' : CaseState) :
      data.status = none → update_case c data uid = some c' → StepKS c c'
  | add_document (c : CaseState) (d : Document) :
      StepKS c { c with documents := c.documents ++ [d] }

/-- Case states reachable without status-changing updates. -/
inductive ReachableKS : CaseState → Prop where
  | created (data : CaseCreateData) (case_number : String) (user_id : Nat) :
      ReachableKS (create_case data case_number user_id)
  | step (c c' : CaseState) : ReachableKS c → StepKS c c' → ReachableKS c'

/-- The spec's §8 per-case invariant: `0 ≤ current_round ≤ max_rounds`,
and the number of persisted verdicts equals `current_round` unless the
case is a draft, in which case it is `0`. -/
def case_invariant (c : CaseState) : Prop :=
  0 ≤ c.current_round ∧ c.current_round ≤ c.max_rounds ∧
  (if c.status = "draft" then c.verdicts.length = 0
   else c.verdicts.length = c.current_round)

instance (c : CaseState) : Decidable (case_invariant c) := by
  unfold case_invariant; infer_instance

/-- Inductive strengthening of `case_invariant`: the verdict rounds of a
non-draft case are exactly `0, 1, …, current_round - 1`, draft cases have
no verdicts, and `max_rounds` is the constant `5` set by `create_case`
(no operation ever writes `max_rounds`). -/
def strong_invariant (c : CaseState) : Prop :=
  c.current_round ≤ c.max_rounds ∧ c.max_rounds = 5 ∧
  (if c.status = "draft" then c.verdicts = []
   else c.verdicts.map VerdictRec.round = List.range c.current_round)

/-- Inductive invariant behind verdict uniqueness, preserved by *every*
operation (status-changing updates included): verdict rounds sit below
`current_round`, a positive round counter owes its value to a round-0
verdict, and no two verdicts share a round. -/
def rounds_invariant (c : CaseState) : Prop :=
  (∀ v ∈ c.verdicts, v.round < c.current_round) ∧
  (1 ≤ c.current_round → ∃ v ∈ c.verdicts, v.round = 0) ∧
  List.Pairwise (fun v₁ v₂ : VerdictRec => v₁.round ≠ v₂.round) c.verdicts

/-! ## Concrete demonstration values -/

/-- A ready document with extracted text, for one side. -/
def sample_doc (s : Side) : Document :=
  { side := s, title := "exhibit", file_type := "pdf",
    full_text := some "extracted text", status := .ready }

/-- A well-formed parsed oracle verdict object. -/
def good_verdict_obj : JObj :=
  [("summary", .jstr "close case"), ("winner", .jstr "A"),
   ("confidence_score", .jnum (17/20 : Rat)), ("issues", .jother),
   ("final_decision", .jstr "A prevails"), ("key_evidence_cited", .jother)]

/-- A parsed verdict object with every required field, `winner` valid, but
`confidence_score = 2`, outside `[0, 1]`. -/
def bad_confidence_obj : JObj :=
  [("summary", .jstr "s"), ("winner", .jstr "A"),
   ("confidence_score", .jnum (2 : Rat)), ("issues", .jother),
   ("final_decision", .jstr "d"), ("key_evidence_cited", .jother)]

/-- A parsed verdict object with every required field but `winner = "C"`,
outside `{A, B, undecided}`. -/
def bad_winner_obj : JObj :=
  [("summary", .jstr "s"), ("winner", .jstr "C"),
   ("confidence_score", .jnum (1/2 : Rat)), ("issues", .jother),
   ("final_decision", .jstr "d"), ("key_evidence_cited", .jother)]

/-- An oracle run that returns the well-formed verdict object. -/
def good_oracle : OracleOutcome :=
  .success { content := some good_verdict_obj, usage := some 1200 }

/-- A freshly created case (owner `7`). -/
def demo_created : CaseState :=
  create_case { title := "T", description := none,
                case_type := "civil", jurisdiction := "India" }
    "CAS-2025-AB12CD" 7

/-- The fresh case after both sides upload one ready document. -/
def demo_with_docs : CaseState :=
  { demo_created with documents := [sample_doc .A, sample_doc .B] }

/-- The round-0 verdict row the orchestrator persists for
`demo_with_docs` under `good_oracle`. -/
def demo_verdict0 : VerdictRec :=
  { round := 0, verdict_json := good_verdict_obj,
    model_used := "gpt-4o-mini", tokens_used := some 1200 }

/-- `demo_with_docs` after successful initial adjudication. -/
def demo_in_progress : CaseState :=
  { demo_with_docs with verdicts := [demo_verdict0],
                        status := "in_progress", current_round := 1 }

/-- `demo_in_progress` after `update_case` writes `status = "draft"`
back onto it — one verdict persisted, yet the case claims to be a
draft. -/
def demo_corrupted : CaseState :=
  { demo_in_progress with status := "draft" }

/-- Whether an oracle run fails adjudication on the argument-round path:
either the API call raises, or the returned content fails the path's
validation (parse + required fields). -/
def adjudication_fails (oracle : OracleOutcome) : Bool :=
  match oracle with
  | .unavailable _ => true
  | .success resp => !(validate_arguments_path resp.content).isOk

/-- Replace a document's NULL `full_text` by the empty string (the value
`(doc.full_text or '')` denotes when `full_text` is falsy). -/
def fill_empty_text (d : Document) : Document :=
  { d with full_text := some (d.full_text.getD "") }

/-- Side A's round-1 argument row for the demonstration case. -/
def demo_argument_A : Argument :=
  { round := 1, side := .A, argument_text := "our evidence is stronger", submitted_by := 7 }

/-- `demo_in_progress` with side A's round-1 argument admitted,
waiting for side B. -/
def demo_waiting : CaseState :=
  { demo_in_progress with arguments := [demo_argument_A] }

/-- A case with side A evidence only. -/
def demo_only_A : CaseState :=
  { demo_created with documents := [sample_doc .A] }

/-- `demo_in_progress` after finalization. -/
def demo_finalized : CaseState :=
  { demo_in_progress with status := "finalized", finalized_at := some 99 }

/-- `demo_in_progress` with the round counter at the round limit. -/
def demo_maxed : CaseState :=
  { demo_in_progress with current_round := 5 }

/-- A ready document whose text extraction left `full_text` NULL. -/
def sample_null_doc : Document :=
  { side := .A, title := "scan", file_type := "pdf",
    full_text := none, status := .ready }

/-! ## Characterization lemmas for the operations -/

theorem generate_initial_verdict_ok {c : CaseState} {oracle : OracleOutcome}
    {v : VerdictRec} {c' : CaseState}
    (h : generate_initial_verdict c oracle = .ok (v, c')) :
    find_verdict c.verdicts 0 = none ∧ v.round = 0 ∧
    c' = { c with verdicts := c.verdicts ++ [v],
                  status := "in_progress", current_round := 1 } := by
  unfold generate_initial_verdict at h
  split at h
  · simp at h
  · rename_i hfind
    have hnone : find_verdict c.verdicts 0 = none := by
      cases hv : find_verdict c.verdicts 0 <;> simp [hv] at hfind ⊢
    repeat' split at h
    all_goals simp only [Except.ok.injEq, Prod.mk.injEq, reduceCtorEq] at h
    obtain ⟨hv, hc⟩ := h
    subst hv
    subst hc
    exact ⟨hnone, rfl, rfl⟩

theorem generate_verdict_with_arguments_ok {c : CaseState} {r : Nat}
    {oracle : OracleOutcome} {v : VerdictRec} {c' : CaseState}
    (h : generate_verdict_with_arguments c r oracle = .ok (v, c')) :
    v.round = r ∧ c' = { c with verdicts := c.verdicts ++ [v] } := by
  unfold generate_verdict_with_arguments at h
  repeat' split at h
  all_goals simp only [Except.ok.injEq, Prod.mk.injEq, reduceCtorEq] at h
  obtain ⟨hv, hc⟩ := h
  subst hv
  subst hc
  exact ⟨rfl, rfl⟩

theorem finalize_case_ok {c : CaseState} {uid now : Nat} {c' : CaseState}
    (h : finalize_case c uid now = .ok c') :
    c.status ≠ "finalized" ∧ (find_verdict c.verdicts 0).isSome ∧
    c' = { c with status := "finalized", finalized_at := some now } := by
  unfold finalize_case at h
  split at h
  · simp at h
  · split at h
    · simp at h
    · split at h
      · simp at h
      · rename_i hown hfin hver
        rw [Except.ok.injEq] at h
        subst h
        refine ⟨by simpa using hfin, ?_, rfl⟩
        cases hv : find_verdict c.verdicts 0 <;> simp [hv] at hver ⊢

theorem update_case_some {c : CaseState} {data : CaseUpdateData} {uid : Nat}
    {c' : CaseState} (h : update_case c data uid = some c') :
    c'.verdicts = c.verdicts ∧ c'.current_round = c.current_round ∧
    c'.max_rounds = c.max_rounds ∧ c'.arguments = c.arguments ∧
    c'.documents = c.documents ∧ c'.status = data.status.getD c.status := by
  unfold update_case at h
  split at h
  · simp at h
  · rw [Option.some.injEq] at h
    subst h
    exact ⟨rfl, rfl, rfl, rfl, rfl, rfl⟩

/-- Every way `submit_argument` can leave the state: unchanged (one of the
four checks fired), one argument row appended (waiting, or adjudication
failed), or one argument row and one verdict row appended with the round
counter advanced (both sides present and adjudication succeeded). -/
theorem submit_argument_state {c : CaseState} {side : Side} {text : String}
    {uid : Nat} {oracle : OracleOutcome} {res : Except SubmitError SubmitResult}
    {c₂ : CaseState} (h : submit_argument c side text uid oracle = (res, c₂)) :
    c₂ = c ∨
    (c.status ≠ "draft" ∧ c.status ≠ "finalized" ∧
     c.current_round < c.max_rounds ∧
     ∃ arg : Argument, arg.round = c.current_round ∧
       (c₂ = { c with arguments := c.arguments ++ [arg] } ∨
        ∃ v : VerdictRec, v.round = c.current_round ∧
          c₂ = { c with arguments := c.arguments ++ [arg],
                        verdicts := c.verdicts ++ [v],
                        current_round := c.current_round + 1 })) := by
  unfold submit_argument at h
  simp only [] at h
  split at h
  · rw [Prod.mk.injEq] at h
    exact Or.inl h.2.symm
  · split at h
    · rw [Prod.mk.injEq] at h
      exact Or.inl h.2.symm
    · split at h
      · rw [Prod.mk.injEq] at h
        exact Or.inl h.2.symm
      · rename_i hfin hdraft hmax
        split at h
        · rw [Prod.mk.injEq] at h
          exact Or.inl h.2.symm
        · refine Or.inr ⟨by simpa using hdraft, by simpa using hfin,
            by omega, ?_⟩
          split at h
          · split at h
            · rename_i hboth vc2 verdict c2 hgen
              obtain ⟨hround, hc2⟩ := generate_verdict_with_arguments_ok hgen
              rw [Prod.mk.injEq] at h
              refine ⟨{ round := c.current_round, side := side,
                        argument_text := text, submitted_by := uid }, rfl,
                Or.inr ⟨verdict, hround, ?_⟩⟩
              rw [← h.2, hc2]
            · rw [Prod.mk.injEq] at h
              exact ⟨{ round := c.current_round, side := side,
                       argument_text := text, submitted_by := uid }, rfl,
                Or.inl h.2.symm⟩
          · rw [Prod.mk.injEq] at h
            exact ⟨{ round := c.current_round, side := side,
                     argument_text := text, submitted_by := uid }, rfl,
              Or.inl h.2.symm⟩

/-! ## Invariant preservation -/

theorem strong_invariant_case {c : CaseState} (h : strong_invariant c) :
    case_invariant c := by
  obtain ⟨h1, h5, h2⟩ := h
  refine ⟨Nat.zero_le _, h1, ?_⟩
  by_cases hd : c.status = "draft"
  · rw [if_pos hd] at h2 ⊢
    simp [h2]
  · rw [if_neg hd] at h2 ⊢
    have := congrArg List.length h2
    simpa using this

theorem strong_invariant_create (data : CaseCreateData) (case_number : String)
    (user_id : Nat) : strong_invariant (create_case data case_number user_id) := by
  refine ⟨by simp [create_case], by simp [create_case], ?_⟩
  simp [create_case]

theorem strong_invariant_step {c c' : CaseState} (hs : StepKS c c')
    (hI : strong_invariant c) : strong_invariant c' := by
  cases hs with
  | initial_verdict oracle v _ h =>
    obtain ⟨hfind, hround, hc'⟩ := generate_initial_verdict_ok h
    subst hc'
    obtain ⟨h1, h5, h2⟩ := hI
    have hempty : c.verdicts = [] := by
      by_cases hd : c.status = "draft"
      · rw [if_pos hd] at h2
        exact h2
      · rw [if_neg hd] at h2
        rcases Nat.eq_zero_or_pos c.current_round with h0 | hpos
        · rw [h0, List.range_zero] at h2
          exact List.map_eq_nil_iff.mp h2
        · exfalso
          have hmem : 0 ∈ c.verdicts.map VerdictRec.round := by
            rw [h2]
            simpa using hpos
          obtain ⟨v0, hv0, hv0r⟩ := List.mem_map.mp hmem
          rw [find_verdict, List.find?_eq_none] at hfind
          exact (by simpa [hv0r] using hfind v0 hv0)
    unfold strong_invariant
    dsimp only
    refine ⟨by omega, h5, ?_⟩
    rw [if_neg (by decide)]
    simp [hempty, hround, List.range_succ]
  | submit side text uid oracle res _ h =>
    rcases submit_argument_state h with hsame | ⟨hdraft, hfin, hlt, arg, harg, hcase⟩
    · subst hsame
      exact hI
    · obtain ⟨h1, h5, h2⟩ := hI
      rcases hcase with hc2 | ⟨v, hv, hc2⟩ <;> subst hc2
      · exact ⟨h1, h5, h2⟩
      · unfold strong_invariant
        dsimp only
        refine ⟨by omega, h5, ?_⟩
        rw [if_neg hdraft] at h2
        rw [if_neg hdraft, List.map_append, h2]
        simp [hv, List.range_succ]
  | finalize uid now _ h =>
    obtain ⟨hfin, hver, hc'⟩ := finalize_case_ok h
    subst hc'
    obtain ⟨h1, h5, h2⟩ := hI
    unfold strong_invariant
    dsimp only
    refine ⟨h1, h5, ?_⟩
    rw [if_neg (by decide)]
    by_cases hd : c.status = "draft"
    · rw [if_pos hd] at h2
      rw [find_verdict, h2] at hver
      simp at hver
    · rw [if_neg hd] at h2
      exact h2
  | update data uid _ hnone h =>
    obtain ⟨hv, hr, hm, ha, hd, hst⟩ := update_case_some h
    rw [hnone, Option.getD_none] at hst
    obtain ⟨h1, h5, h2⟩ := hI
    refine ⟨by rw [hr, hm]; exact h1, by rw [hm]; exact h5, ?_⟩
    rw [hst, hv, hr]
    exact h2
  | add_document d =>
    exact hI

theorem reachableKS_strong_invariant {c : CaseState} (h : ReachableKS c) :
    strong_invariant c := by
  induction h with
  | created data case_number user_id =>
    exact strong_invariant_create data case_number user_id
  | step c c' hr hs ih =>
    exact strong_invariant_step hs ih

theorem rounds_invariant_step {c c' : CaseState} (hs : Step c c')
    (hI : rounds_invariant c) : rounds_invariant c' := by
  cases hs with
  | initial_verdict oracle v _ h =>
    obtain ⟨hfind, hround, hc'⟩ := generate_initial_verdict_ok h
    subst hc'
    obtain ⟨h1, h2, h3⟩ := hI
    have hempty : c.verdicts = [] := by
      by_cases hcr : 1 ≤ c.current_round
      · obtain ⟨v0, hv0, hv0r⟩ := h2 hcr
        rw [find_verdict, List.find?_eq_none] at hfind
        exact absurd (by simpa using hfind v0 hv0) (by simp [hv0r])
      · cases hvs : c.verdicts with
        | nil => rfl
        | cons a t =>
          have := h1 a (by rw [hvs]; exact List.mem_cons_self a t)
          omega
    unfold rounds_invariant
    dsimp only
    refine ⟨?_, ?_, ?_⟩
    · intro w hw
      rw [hempty] at hw
      simp at hw
      subst hw
      omega
    · intro _
      exact ⟨v, by simp, hround⟩
    · rw [hempty]
      simp
  | submit side text uid oracle res _ h =>
    rcases submit_argument_state h with hsame | ⟨hdraft, hfin, hlt, arg, harg, hcase⟩
    · subst hsame
      exact hI
    · obtain ⟨h1, h2, h3⟩ := hI
      rcases hcase with hc2 | ⟨v, hv, hc2⟩ <;> subst hc2
      · exact ⟨h1, h2, h3⟩
      · unfold rounds_invariant
        dsimp only
        refine ⟨?_, ?_, ?_⟩
        · intro w hw
          rcases List.mem_append.mp hw with hw | hw
          · have := h1 w hw
            omega
          · simp at hw
            subst hw
            omega
        · intro _
          by_cases hcr : 1 ≤ c.current_round
          · obtain ⟨v0, hv0, hv0r⟩ := h2 hcr
            exact ⟨v0, List.mem_append_left _ hv0, hv0r⟩
          · exact ⟨v, List.mem_append_right _ (by simp), by omega⟩
        · rw [List.pairwise_append]
          refine ⟨h3, by simp, ?_⟩
          intro a ha b hb
          simp at hb
          subst hb
          have := h1 a ha
          omega
  | finalize uid now _ h =>
    obtain ⟨hfin, hver, hc'⟩ := finalize_case_ok h
    subst hc'
    exact hI
  | update data uid _ h =>
    obtain ⟨hv, hr, hm, ha, hd, hst⟩ := update_case_some h
    obtain ⟨h1, h2, h3⟩ := hI
    refine ⟨?_, ?_, ?_⟩
    · rw [hv, hr]
      exact h1
    · rw [hv, hr]
      exact h2
    · rw [hv]
      exact h3
  | add_document d =>
    exact hI

theorem reachable_rounds_invariant {c : CaseState} (h : Reachable c) :
    rounds_invariant c := by
  induction h with
  | created data case_number user_id =>
    exact ⟨by simp [create_case], by simp [create_case], by simp [create_case]⟩
  | step c c' hr hs ih =>
    exact rounds_invariant_step hs ih

/-! ## Helper lemmas for the claim theorems -/

theorem find_argument_append_one (args : List Argument) (a : Argument)
    (r : Nat) (s : Side) :
    find_argument (args ++ [a]) r s =
      (find_argument args r s).or (find_argument [a] r s) := by
  unfold find_argument
  exact List.find?_append

theorem find_argument_single_hit (r : Nat) (s : Side) (t : String) (u : Nat) :
    find_argument [⟨r, s, t, u⟩] r s = some ⟨r, s, t, u⟩ := by
  simp [find_argument]

theorem find_argument_single_miss {s s' : Side} (hne : s ≠ s') (r r' : Nat)
    (t : String) (u : Nat) :
    find_argument [⟨r, s, t, u⟩] r' s' = none := by
  have hb : (s == s') = false := by
    simpa using hne
  simp [find_argument, List.find?, hb]

theorem generate_verdict_with_arguments_success (c : CaseState) (r : Nat)
    (resp : OracleResponse) (d : JObj) (hcontent : resp.content = some d)
    (hmf : missing_fields d = []) :
    generate_verdict_with_arguments c r (.success resp) =
      .ok ({ round := r, verdict_json := d, model_used := "gpt-4o-mini",
             tokens_used := resp.usage },
           { c with verdicts := c.verdicts ++
               [{ round := r, verdict_json := d, model_used := "gpt-4o-mini",
                  tokens_used := resp.usage }] }) := by
  simp [generate_verdict_with_arguments, validate_arguments_path, hcontent, hmf]

theorem generate_verdict_with_arguments_fails (c : CaseState) (r : Nat)
    (oracle : OracleOutcome) (hbad : adjudication_fails oracle = true) :
    ∃ e, generate_verdict_with_arguments c r oracle = .error e := by
  cases oracle with
  | unavailable msg =>
    exact ⟨"Failed to generate verdict: " ++ msg,
      by simp [generate_verdict_with_arguments]⟩
  | success resp =>
    simp only [adjudication_fails] at hbad
    cases hv : validate_arguments_path resp.content with
    | error e =>
      exact ⟨"Failed to generate verdict: " ++ e,
        by simp [generate_verdict_with_arguments, hv]⟩
    | ok d =>
      rw [hv] at hbad
      simp [Except.isOk, Except.toBool] at hbad

theorem step_of_stepKS {c c' : CaseState} (h : StepKS c c') : Step c c' := by
  cases h with
  | initial_verdict oracle v _ h => exact Step.initial_verdict _ oracle v _ h
  | submit side text uid oracle res _ h =>
    exact Step.submit _ side text uid oracle res _ h
  | finalize uid now _ h => exact Step.finalize _ uid now _ h
  | update data uid _ hnone h => exact Step.update _ data uid _ h
  | add_document d => exact Step.add_document _ d

theorem reachable_of_reachableKS {c : CaseState} (h : ReachableKS c) :
    Reachable c := by
  induction h with
  | created data case_number user_id => exact Reachable.created data case_number user_id
  | step c c' hr hs ih => exact Reachable.step _ _ ih (step_of_stepKS hs)

theorem demo_initial_eval :
    generate_initial_verdict demo_with_docs good_oracle =
      .ok (demo_verdict0, demo_in_progress) := by
  rfl

theorem reachableKS_demo_in_progress : ReachableKS demo_in_progress := by
  have h0 : ReachableKS demo_created := ReachableKS.created _ _ _
  have h1 : ReachableKS { demo_created with
      documents := demo_created.documents ++ [sample_doc .A] } :=
    ReachableKS.step _ _ h0 (StepKS.add_document _ _)
  have h2 : ReachableKS demo_with_docs :=
    ReachableKS.step _ _ h1 (StepKS.add_document _ (sample_doc .B))
  exact ReachableKS.step _ _ h2
    (StepKS.initial_verdict _ good_oracle demo_verdict0 _ demo_initial_eval)

theorem reachable_demo_corrupted : Reachable demo_corrupted := by
  have h := reachable_of_reachableKS reachableKS_demo_in_progress
  exact Reachable.step _ _ h (Step.update _
    { title := none, description := none, case_type := none,
      jurisdiction := none, status := some "draft" } 7 _ rfl)

/-- Evaluation of `submit_argument` when all four checks pass and the
other side has already submitted for the current round: the argument is
committed and adjudication runs on the post-commit state. -/
theorem submit_argument_both_sides (c : CaseState) (side : Side) (text : String)
    (uid : Nat) (oracle : OracleOutcome)
    (hfin : c.status ≠ "finalized") (hdraft : c.status ≠ "draft")
    (hmax : c.current_round < c.max_rounds)
    (hself : find_argument c.arguments c.current_round side = none)
    (hother : (find_argument c.arguments c.current_round (other_side side)).isSome) :
    submit_argument c side text uid oracle =
      (match generate_verdict_with_arguments
          { c with arguments := c.arguments ++
              [⟨c.current_round, side, text, uid⟩] } c.current_round oracle with
       | .ok (verdict, c2) =>
         (.ok { argument := ⟨c.current_round, side, text, uid⟩,
                verdict := some verdict, waiting_for_other_side := false },
          { c2 with current_round := c.current_round + 1 })
       | .error e =>
         (.error (.verdictGenFailed ("Failed to generate verdict after arguments: " ++ e)),
          { c with arguments := c.arguments ++
              [⟨c.current_round, side, text, uid⟩] })) := by
  have hfinb : (c.status == "finalized") = false := by simpa using hfin
  have hdraftb : (c.status == "draft") = false := by simpa using hdraft
  have hmaxb : ¬ (c.current_round ≥ c.max_rounds) := by omega
  obtain ⟨b, hb⟩ := Option.isSome_iff_exists.mp hother
  unfold submit_argument
  simp only []
  rw [if_neg (by simp [hfinb]), if_neg (by simp [hdraftb]), if_neg hmaxb, hself]
  cases side with
  | A =>
    have hAfind : find_argument (c.arguments ++ [⟨c.current_round, Side.A, text, uid⟩])
        c.current_round Side.A = some ⟨c.current_round, Side.A, text, uid⟩ := by
      rw [find_argument_append_one, hself, find_argument_single_hit]
      rfl
    have hBfind : find_argument (c.arguments ++ [⟨c.current_round, Side.A, text, uid⟩])
        c.current_round Side.B = some b := by
      rw [find_argument_append_one]
      rw [show other_side Side.A = Side.B from rfl] at hb
      rw [hb]
      rfl
    rw [if_pos (by rw [hAfind, hBfind]; rfl)]
  | B =>
    have hBfind : find_argument (c.arguments ++ [⟨c.current_round, Side.B, text, uid⟩])
        c.current_round Side.B = some ⟨c.current_round, Side.B, text, uid⟩ := by
      rw [find_argument_append_one, hself, find_argument_single_hit]
      rfl
    have hAfind : find_argument (c.arguments ++ [⟨c.current_round, Side.B, text, uid⟩])
        c.current_round Side.A = some b := by
      rw [find_argument_append_one]
      rw [show other_side Side.B = Side.A from rfl] at hb
      rw [hb]
      rfl
    rw [if_pos (by rw [hAfind, hBfind]; rfl)]

/-- Evaluation of `submit_argument` when all four checks pass but the
other side has not yet submitted: the argument is committed, no
adjudication happens, and the waiting result is returned unchanged for
every oracle. -/
theorem submit_argument_waits_eq (c : CaseState) (side : Side) (text : String)
    (uid : Nat) (oracle : OracleOutcome)
    (hfin : c.status ≠ "finalized") (hdraft : c.status ≠ "draft")
    (hmax : c.current_round < c.max_rounds)
    (hself : find_argument c.arguments c.current_round side = none)
    (hother : find_argument c.arguments c.current_round (other_side side) = none) :
    submit_argument c side text uid oracle =
      (.ok { argument := ⟨c.current_round, side, text, uid⟩,
             verdict := none, waiting_for_other_side := true },
       { c with arguments := c.arguments ++
           [⟨c.current_round, side, text, uid⟩] }) := by
  have hfinb : (c.status == "finalized") = false := by simpa using hfin
  have hdraftb : (c.status == "draft") = false := by simpa using hdraft
  have hmaxb : ¬ (c.current_round ≥ c.max_rounds) := by omega
  unfold submit_argument
  simp only []
  rw [if_neg (by simp [hfinb]), if_neg (by simp [hdraftb]), if_neg hmaxb, hself]
  cases side with
  | A =>
    have hBfind : find_argument (c.arguments ++ [⟨c.current_round, Side.A, text, uid⟩])
        c.current_round Side.B = none := by
      rw [find_argument_append_one]
      rw [show other_side Side.A = Side.B from rfl] at hother
      rw [hother, find_argument_single_miss (by decide)]
      rfl
    rw [if_neg (by rw [hBfind]; simp)]
  | B =>
    have hAfind : find_argument (c.arguments ++ [⟨c.current_round, Side.B, text, uid⟩])
        c.current_round Side.A = none := by
      rw [find_argument_append_one]
      rw [show other_side Side.B = Side.A from rfl] at hother
      rw [hother, find_argument_single_miss (by decide)]
      rfl
    rw [if_neg (by rw [hAfind]; simp)]

/-! ## Claim theorems -/

/-- C1 counterexample: on a reachable case that already holds
Verdict(round = 0), a second `generate_initial_verdict` attempt raises the
duplicate error — it does not return the already-existing verdict, so the
claim as stated is false. -/
theorem duplicate_round0_attempt_errors :
    (find_verdict demo_in_progress.verdicts 0).isSome = true ∧
    generate_initial_verdict demo_in_progress good_oracle =
      .error .round0AlreadyExists :=
  ⟨rfl, rfl⟩

/-- C1 (amended): for every reachable case state, at most one verdict
exists per round (no two persisted verdicts share a round number); a
second `generate_initial_verdict` attempt for a case holding
Verdict(round = 0) fails with the duplicate-verdict error rather than
returning the existing verdict or creating a second one. -/
theorem verdict_per_round_unique :
    (∀ c : CaseState, Reachable c →
      List.Pairwise (fun v₁ v₂ : VerdictRec => v₁.round ≠ v₂.round) c.verdicts) ∧
    (∀ (c : CaseState) (oracle : OracleOutcome),
      (find_verdict c.verdicts 0).isSome →
      generate_initial_verdict c oracle = .error .round0AlreadyExists) := by
  constructor
  · intro c h
    exact (reachable_rounds_invariant h).2.2
  · intro c oracle h
    unfold generate_initial_verdict
    rw [if_pos h]

/-- Witness for C1 (amended) at the demonstration case. -/
theorem verdict_per_round_unique_witness :
    List.Pairwise (fun v₁ v₂ : VerdictRec => v₁.round ≠ v₂.round)
      demo_in_progress.verdicts ∧
    generate_initial_verdict demo_in_progress good_oracle =
      .error .round0AlreadyExists :=
  ⟨verdict_per_round_unique.1 demo_in_progress
     (reachable_of_reachableKS reachableKS_demo_in_progress),
   verdict_per_round_unique.2 demo_in_progress good_oracle rfl⟩

/-- C2 counterexample: a reachable case state violating the claimed
invariant — `update_case` writes `status = "draft"` back onto an
in-progress case that already holds one verdict, after which the verdict
count (1) differs from the value the invariant demands for a draft
(0). -/
theorem status_update_breaks_invariant :
    Reachable demo_corrupted ∧ ¬ case_invariant demo_corrupted :=
  ⟨reachable_demo_corrupted, by decide⟩

/-- C2 (amended): `0 ≤ current_round ≤ max_rounds` and the
verdict-count/round equality hold for every case state reachable by case
creation, initial verdict generation, argument submission, finalization,
document ingestion and case updates that do not supply a `status` field;
a case update supplying `status` can break the invariant. -/
theorem case_invariant_holds :
    ∀ c : CaseState, ReachableKS c → case_invariant c :=
  fun _ h => strong_invariant_case (reachableKS_strong_invariant h)

/-- Witness for C2 (amended) at the demonstration case. -/
theorem case_invariant_holds_witness : case_invariant demo_in_progress :=
  case_invariant_holds demo_in_progress reachableKS_demo_in_progress

/-- C3: when a submission completes round `r = current_round` (the other
side already has an argument for `r`, and the oracle response passes the
argument-path validation), the created verdict carries the pre-advance
round number `r`, and `current_round` becomes `r + 1` only in the
post-state produced after the verdict row. -/
theorem completing_submission_verdict_round :
    ∀ (c : CaseState) (side : Side) (text : String) (uid : Nat)
      (resp : OracleResponse) (d : JObj),
      c.status ≠ "finalized" → c.status ≠ "draft" →
      c.current_round < c.max_rounds →
      find_argument c.arguments c.current_round side = none →
      (find_argument c.arguments c.current_round (other_side side)).isSome →
      resp.content = some d → missing_fields d = [] →
      submit_argument c side text uid (.success resp) =
        (.ok { argument := ⟨c.current_round, side, text, uid⟩,
               verdict := some { round := c.current_round, verdict_json := d,
                                 model_used := "gpt-4o-mini",
                                 tokens_used := resp.usage },
               waiting_for_other_side := false },
         { c with
             arguments := c.arguments ++ [⟨c.current_round, side, text, uid⟩],
             verdicts := c.verdicts ++
               [{ round := c.current_round, verdict_json := d,
                  model_used := "gpt-4o-mini", tokens_used := resp.usage }],
             current_round := c.current_round + 1 }) := by
  intro c side text uid resp d hfin hdraft hmax hself hother hcontent hmf
  rw [submit_argument_both_sides c side text uid (.success resp)
    hfin hdraft hmax hself hother]
  rw [generate_verdict_with_arguments_success _ _ _ _ hcontent hmf]

/-- Witness for C3: at round 1 with side A already submitted, side B's
submission yields Verdict(round = 1) and `current_round` becomes 2. -/
theorem completing_submission_verdict_round_witness :
    submit_argument demo_waiting .B "our rebuttal is decisive" 7 good_oracle =
      (.ok { argument := ⟨1, .B, "our rebuttal is decisive", 7⟩,
             verdict := some { round := 1, verdict_json := good_verdict_obj,
                               model_used := "gpt-4o-mini", tokens_used := some 1200 },
             waiting_for_other_side := false },
       { demo_waiting with
           arguments := demo_waiting.arguments ++ [⟨1, .B, "our rebuttal is decisive", 7⟩],
           verdicts := demo_waiting.verdicts ++
             [{ round := 1, verdict_json := good_verdict_obj,
                model_used := "gpt-4o-mini", tokens_used := some 1200 }],
           current_round := 2 }) :=
  completing_submission_verdict_round demo_waiting .B "our rebuttal is decisive" 7
    { content := some good_verdict_obj, usage := some 1200 } good_verdict_obj
    (by decide) (by decide) (by decide) rfl rfl rfl rfl

/-- C4: if both sides' arguments are admitted for the current round but
adjudication fails (the oracle call raises, or its response fails
validation), the submission is not consumed: both argument rows remain
persisted in the post-state, and `current_round`, `status` and the
verdict set are unchanged, so the trigger can be retried without
re-submitting arguments. -/
theorem failed_adjudication_preserves_submissions :
    ∀ (c : CaseState) (side : Side) (text : String) (uid : Nat)
      (oracle : OracleOutcome),
      c.status ≠ "finalized" → c.status ≠ "draft" →
      c.current_round < c.max_rounds →
      find_argument c.arguments c.current_round side = none →
      (find_argument c.arguments c.current_round (other_side side)).isSome →
      adjudication_fails oracle = true →
      ∃ (e : String) (c' : CaseState),
        submit_argument c side text uid oracle = (.error (.verdictGenFailed e), c') ∧
        c'.current_round = c.current_round ∧ c'.verdicts = c.verdicts ∧
        c'.status = c.status ∧
        (find_argument c'.arguments c.current_round side).isSome ∧
        (find_argument c'.arguments c.current_round (other_side side)).isSome := by
  intro c side text uid oracle hfin hdraft hmax hself hother hbad
  obtain ⟨e, hgen⟩ := generate_verdict_with_arguments_fails
    { c with arguments := c.arguments ++ [⟨c.current_round, side, text, uid⟩] }
    c.current_round oracle hbad
  refine ⟨"Failed to generate verdict after arguments: " ++ e,
    { c with arguments := c.arguments ++ [⟨c.current_round, side, text, uid⟩] },
    ?_, rfl, rfl, rfl, ?_, ?_⟩
  · rw [submit_argument_both_sides c side text uid oracle
      hfin hdraft hmax hself hother, hgen]
  · show (find_argument (c.arguments ++ [⟨c.current_round, side, text, uid⟩])
      c.current_round side).isSome
    rw [find_argument_append_one, hself, find_argument_single_hit]
    rfl
  · show (find_argument (c.arguments ++ [⟨c.current_round, side, text, uid⟩])
      c.current_round (other_side side)).isSome
    rw [find_argument_append_one]
    obtain ⟨b, hb⟩ := Option.isSome_iff_exists.mp hother
    rw [hb]
    rfl

/-- Witness for C4: at round 1 with side A already submitted, side B's
submission with an unreachable oracle fails without consuming either
argument and without advancing the round. -/
theorem failed_adjudication_preserves_submissions_witness :
    ∃ (e : String) (c' : CaseState),
      submit_argument demo_waiting .B "our rebuttal is decisive" 7
          (.unavailable "connection reset") =
        (.error (.verdictGenFailed e), c') ∧
      c'.current_round = demo_waiting.current_round ∧
      c'.verdicts = demo_waiting.verdicts ∧
      c'.status = demo_waiting.status ∧
      (find_argument c'.arguments demo_waiting.current_round .B).isSome ∧
      (find_argument c'.arguments demo_waiting.current_round (other_side .B)).isSome :=
  failed_adjudication_preserves_submissions demo_waiting .B
    "our rebuttal is decisive" 7 (.unavailable "connection reset")
    (by decide) (by decide) (by decide) rfl rfl rfl

/-- C5 counterexample: a response object with every required field,
`winner = "A"` but `confidence_score = 2` (outside `[0, 1]`) passes both
validation paths, and a response with `winner = "C"` passes the
argument-round path — so validation does *not* fail exactly on the
spec's condition, on either path. -/
theorem validation_gap_inputs :
    spec_response_valid (some bad_confidence_obj) = false ∧
    parse_verdict_json (some bad_confidence_obj) = .ok bad_confidence_obj ∧
    validate_arguments_path (some bad_confidence_obj) = .ok bad_confidence_obj ∧
    spec_response_valid (some bad_winner_obj) = false ∧
    validate_arguments_path (some bad_winner_obj) = .ok bad_winner_obj :=
  ⟨rfl, rfl, rfl, rfl, rfl⟩

/-- C5 (amended): the initial-verdict path's validation fails exactly
when the response does not parse as JSON, a required field is missing, or
`winner` is not in `{A, B, undecided}`; the argument-round path's
validation fails exactly when the response does not parse or a required
field is missing.  `confidence_score` is never range-checked, and the
argument-round path does not check `winner`. -/
theorem validation_fails_iff :
    (parse_verdict_json none).isOk = false ∧
    (∀ d : JObj, (parse_verdict_json (some d)).isOk =
      (missing_fields d == [] &&
       winner_valid ((d.lookup "winner").getD JVal.jother))) ∧
    (validate_arguments_path none).isOk = false ∧
    (∀ d : JObj, (validate_arguments_path (some d)).isOk = (missing_fields d == [])) := by
  refine ⟨rfl, ?_, rfl, ?_⟩
  · intro d
    by_cases hm : missing_fields d = []
    · by_cases hw : winner_valid ((d.lookup "winner").getD JVal.jother) = true
      · simp [parse_verdict_json, hm, hw, Except.isOk, Except.toBool]
      · rw [Bool.not_eq_true] at hw
        simp [parse_verdict_json, hm, hw, Except.isOk, Except.toBool]
    · simp [parse_verdict_json, hm, Except.isOk, Except.toBool, beq_iff_eq]
  · intro d
    by_cases hm : missing_fields d = []
    · simp [validate_arguments_path, hm, Except.isOk, Except.toBool]
    · simp [validate_arguments_path, hm, Except.isOk, Except.toBool, beq_iff_eq]

/-- C6: the four checks of `submit_argument` fire in source order —
finalized, draft, round limit, duplicate submission — and when all four
pass, exactly one new argument row for (current_round, side) is appended,
whatever the oracle does. -/
theorem submit_argument_check_order :
    ∀ (c : CaseState) (side : Side) (text : String) (uid : Nat)
      (oracle : OracleOutcome),
      (c.status = "finalized" →
        submit_argument c side text uid oracle = (.error .caseFinalized, c)) ∧
      (c.status ≠ "finalized" → c.status = "draft" →
        submit_argument c side text uid oracle = (.error .caseNotReady, c)) ∧
      (c.status ≠ "finalized" → c.status ≠ "draft" →
        c.current_round ≥ c.max_rounds →
        submit_argument c side text uid oracle = (.error .maxRoundsReached, c)) ∧
      (c.status ≠ "finalized" → c.status ≠ "draft" →
        c.current_round < c.max_rounds →
        (find_argument c.arguments c.current_round side).isSome →
        submit_argument c side text uid oracle =
          (.error (.alreadySubmitted side c.current_round), c)) ∧
      (c.status ≠ "finalized" → c.status ≠ "draft" →
        c.current_round < c.max_rounds →
        find_argument c.arguments c.current_round side = none →
        (submit_argument c side text uid oracle).2.arguments =
          c.arguments ++ [⟨c.current_round, side, text, uid⟩]) := by
  intro c side text uid oracle
  refine ⟨?_, ?_, ?_, ?_, ?_⟩
  · intro h
    unfold submit_argument
    rw [if_pos (by simp [h])]
  · intro h1 h2
    unfold submit_argument
    rw [if_neg (by simp [h1]), if_pos (by simp [h2])]
  · intro h1 h2 h3
    unfold submit_argument
    rw [if_neg (by simp [h1]), if_neg (by simp [h2]), if_pos h3]
  · intro h1 h2 h3 h4
    obtain ⟨a, ha⟩ := Option.isSome_iff_exists.mp h4
    unfold submit_argument
    simp only []
    rw [if_neg (by simp [h1]), if_neg (by simp [h2]), if_neg (by omega), ha]
  · intro h1 h2 h3 h4
    by_cases hother : (find_argument c.arguments c.current_round (other_side side)).isSome
    · rw [submit_argument_both_sides c side text uid oracle h1 h2 h3 h4 hother]
      split
      next verdict c2 hgen =>
        obtain ⟨hvr, hc2⟩ := generate_verdict_with_arguments_ok hgen
        rw [hc2]
      next e hgen => rfl
    · have hother' : find_argument c.arguments c.current_round (other_side side) = none := by
        cases hv : find_argument c.arguments c.current_round (other_side side) <;>
          simp [hv] at hother ⊢
      rw [submit_argument_waits_eq c side text uid oracle h1 h2 h3 h4 hother']

/-- Witness for C6: each of the five branches observed at a concrete
case state. -/
theorem submit_argument_check_order_witness :
    submit_argument demo_finalized .A "new filing to consider" 7 good_oracle =
      (.error .caseFinalized, demo_finalized) ∧
    submit_argument demo_created .A "new filing to consider" 7 good_oracle =
      (.error .caseNotReady, demo_created) ∧
    submit_argument demo_maxed .A "new filing to consider" 7 good_oracle =
      (.error .maxRoundsReached, demo_maxed) ∧
    submit_argument demo_waiting .A "new filing to consider" 7 good_oracle =
      (.error (.alreadySubmitted .A 1), demo_waiting) ∧
    (submit_argument demo_in_progress .A "new filing to consider" 7 good_oracle).2.arguments =
      demo_in_progress.arguments ++ [⟨1, .A, "new filing to consider", 7⟩] :=
  ⟨(submit_argument_check_order demo_finalized .A "new filing to consider" 7 good_oracle).1 rfl,
   (submit_argument_check_order demo_created .A "new filing to consider" 7 good_oracle).2.1
     (by decide) rfl,
   (submit_argument_check_order demo_maxed .A "new filing to consider" 7 good_oracle).2.2.1
     (by decide) (by decide) (by decide),
   (submit_argument_check_order demo_waiting .A "new filing to consider" 7 good_oracle).2.2.2.1
     (by decide) (by decide) (by decide) rfl,
   (submit_argument_check_order demo_in_progress .A "new filing to consider" 7 good_oracle).2.2.2.2
     (by decide) (by decide) (by decide) rfl⟩

/-- C7: `generate_initial_verdict` fails with the side-A validation error
whenever side A has no ready document (and no round-0 verdict exists yet),
with the side-B analogue when side A has documents and side B has none;
on success it persists Verdict(round = 0), sets `status = in_progress`
and `current_round = 1`. -/
theorem initial_verdict_requirements :
    (∀ (c : CaseState) (oracle : OracleOutcome),
      find_verdict c.verdicts 0 = none →
      (fetch_case_context c).side_a_docs = [] →
      generate_initial_verdict c oracle = .error .sideANoDocuments) ∧
    (∀ (c : CaseState) (oracle : OracleOutcome),
      find_verdict c.verdicts 0 = none →
      (fetch_case_context c).side_a_docs ≠ [] →
      (fetch_case_context c).side_b_docs = [] →
      generate_initial_verdict c oracle = .error .sideBNoDocuments) ∧
    VerdictError.message .sideANoDocuments = "Side A has not submitted any documents" ∧
    VerdictError.message .sideBNoDocuments = "Side B has not submitted any documents" ∧
    (∀ (c : CaseState) (oracle : OracleOutcome) (v : VerdictRec) (c' : CaseState),
      generate_initial_verdict c oracle = .ok (v, c') →
      v.round = 0 ∧ c'.status = "in_progress" ∧ c'.current_round = 1 ∧
      c'.verdicts = c.verdicts ++ [v]) := by
  refine ⟨?_, ?_, rfl, rfl, ?_⟩
  · intro c oracle h0 hA
    unfold generate_initial_verdict
    rw [if_neg (by simp [h0])]
    have hval : validate_documents (fetch_case_context c) = .error .sideANoDocuments := by
      unfold validate_documents
      rw [if_pos hA]
    rw [hval]
  · intro c oracle h0 hA hB
    unfold generate_initial_verdict
    rw [if_neg (by simp [h0])]
    have hval : validate_documents (fetch_case_context c) = .error .sideBNoDocuments := by
      unfold validate_documents
      rw [if_neg hA, if_pos hB]
    rw [hval]
  · intro c oracle v c' h
    obtain ⟨_, hr, hc⟩ := generate_initial_verdict_ok h
    subst hc
    exact ⟨hr, rfl, rfl, rfl⟩

/-- Witness for C7: the empty demonstration case fails with the side-A
error, the A-only case with the side-B error, and the fully prepared case
succeeds with the claimed postconditions. -/
theorem initial_verdict_requirements_witness :
    generate_initial_verdict demo_created good_oracle = .error .sideANoDocuments ∧
    generate_initial_verdict demo_only_A good_oracle = .error .sideBNoDocuments ∧
    (demo_verdict0.round = 0 ∧ demo_in_progress.status = "in_progress" ∧
     demo_in_progress.current_round = 1 ∧
     demo_in_progress.verdicts = demo_with_docs.verdicts ++ [demo_verdict0]) :=
  ⟨initial_verdict_requirements.1 demo_created good_oracle rfl rfl,
   initial_verdict_requirements.2.1 demo_only_A good_oracle rfl (by decide) rfl,
   initial_verdict_requirements.2.2.2.2 demo_with_docs good_oracle demo_verdict0
     demo_in_progress demo_initial_eval⟩

/-- C8: a submission by one side while the other side has not yet
submitted for the current round returns `waiting_for_other_side = true`
with no verdict, and — independently of the oracle, which is never
invoked — changes nothing but appending the one new argument row:
`status`, `current_round` and the verdict set are those of the
pre-state. -/
theorem single_side_submission_waits :
    ∀ (c : CaseState) (side : Side) (text : String) (uid : Nat)
      (oracle : OracleOutcome),
      c.status ≠ "finalized" → c.status ≠ "draft" →
      c.current_round < c.max_rounds →
      find_argument c.arguments c.current_round side = none →
      find_argument c.arguments c.current_round (other_side side) = none →
      submit_argument c side text uid oracle =
        (.ok { argument := ⟨c.current_round, side, text, uid⟩,
               verdict := none, waiting_for_other_side := true },
         { c with arguments := c.arguments ++ [⟨c.current_round, side, text, uid⟩] }) :=
  fun c side text uid oracle hfin hdraft hmax hself hother =>
    submit_argument_waits_eq c side text uid oracle hfin hdraft hmax hself hother

/-- Witness for C8: side A submits alone at round 1 of the demonstration
case. -/
theorem single_side_submission_waits_witness :
    submit_argument demo_in_progress .A "our evidence is stronger" 7 good_oracle =
      (.ok { argument := ⟨1, .A, "our evidence is stronger", 7⟩,
             verdict := none, waiting_for_other_side := true },
       { demo_in_progress with
           arguments := demo_in_progress.arguments ++
             [⟨1, .A, "our evidence is stronger", 7⟩] }) :=
  single_side_submission_waits demo_in_progress .A "our evidence is stronger" 7
    good_oracle (by decide) (by decide) (by decide) rfl rfl

/-- C9: `finalize_case` (for the case owner) fails with a conflict when
the case is already finalized, fails with the validation error when no
Verdict(round = 0) exists, and otherwise sets `status = finalized` and
records the finalization timestamp; afterwards `submit_argument` rejects
every submission on the finalized case, and `generate_initial_verdict`
rejects every attempt on a case holding Verdict(round = 0) — so no
further Argument or Verdict can be created. -/
theorem finalize_gating_and_terminal :
    (∀ (c : CaseState) (uid now : Nat), c.created_by = uid →
      c.status = "finalized" →
      finalize_case c uid now = .error .alreadyFinalized) ∧
    (∀ (c : CaseState) (uid now : Nat), c.created_by = uid →
      c.status ≠ "finalized" → find_verdict c.verdicts 0 = none →
      finalize_case c uid now = .error .noInitialVerdict) ∧
    (∀ (c : CaseState) (uid now : Nat), c.created_by = uid →
      c.status ≠ "finalized" → (find_verdict c.verdicts 0).isSome →
      finalize_case c uid now =
        .ok { c with status := "finalized", finalized_at := some now }) ∧
    (∀ (c : CaseState) (side : Side) (text : String) (uid2 : Nat)
       (oracle : OracleOutcome), c.status = "finalized" →
      submit_argument c side text uid2 oracle = (.error .caseFinalized, c)) ∧
    (∀ (c : CaseState) (oracle : OracleOutcome),
      (find_verdict c.verdicts 0).isSome →
      generate_initial_verdict c oracle = .error .round0AlreadyExists) := by
  refine ⟨?_, ?_, ?_, ?_, ?_⟩
  · intro c uid now hown hfin
    unfold finalize_case
    rw [if_neg (by simp [hown]), if_pos (by simp [hfin])]
  · intro c uid now hown hfin h0
    unfold finalize_case
    rw [if_neg (by simp [hown]), if_neg (by simp [hfin]), if_pos (by simp [h0])]
  · intro c uid now hown hfin h0
    obtain ⟨b, hb⟩ := Option.isSome_iff_exists.mp h0
    unfold finalize_case
    rw [if_neg (by simp [hown]), if_neg (by simp [hfin]), if_neg (by simp [hb])]
  · intro c side text uid2 oracle hfin
    unfold submit_argument
    rw [if_pos (by simp [hfin])]
  · intro c oracle h
    unfold generate_initial_verdict
    rw [if_pos h]

/-- Witness for C9 at the demonstration cases. -/
theorem finalize_gating_and_terminal_witness :
    finalize_case demo_finalized 7 42 = .error .alreadyFinalized ∧
    finalize_case demo_created 7 42 = .error .noInitialVerdict ∧
    finalize_case demo_in_progress 7 42 =
      .ok { demo_in_progress with status := "finalized", finalized_at := some 42 } ∧
    submit_argument demo_finalized .B "a late argument here" 7 good_oracle =
      (.error .caseFinalized, demo_finalized) ∧
    generate_initial_verdict demo_finalized good_oracle =
      .error .round0AlreadyExists :=
  ⟨finalize_gating_and_terminal.1 demo_finalized 7 42 rfl rfl,
   finalize_gating_and_terminal.2.1 demo_created 7 42 rfl (by decide) rfl,
   finalize_gating_and_terminal.2.2.1 demo_in_progress 7 42 rfl (by decide) rfl,
   finalize_gating_and_terminal.2.2.2.1 demo_finalized .B "a late argument here" 7
     good_oracle rfl,
   finalize_gating_and_terminal.2.2.2.2 demo_finalized good_oracle rfl⟩

/-- C10: in `build_verdict_with_arguments_prompt`, a document whose
`full_text` is NULL renders as an empty excerpt (the prompt is unchanged
if every NULL text is replaced by the empty string — the function is
total over NULL text), and every document excerpt in the prompt has
length at most 800 characters. -/
theorem argument_prompt_null_safe :
    (∀ d : Document, d.full_text = none → doc_excerpt d = "") ∧
    (∀ d : Document, (doc_excerpt d).length ≤ 800) ∧
    (∀ (c : CaseState) (side_a_docs side_b_docs : List Document)
       (side_a_args side_b_args : List Argument)
       (pv : Option VerdictRec) (r : Nat),
       build_verdict_with_arguments_prompt c (side_a_docs.map fill_empty_text)
         (side_b_docs.map fill_empty_text) side_a_args side_b_args pv r =
       build_verdict_with_arguments_prompt c side_a_docs side_b_docs
         side_a_args side_b_args pv r) := by
  have hline : ∀ d : Document, doc_line_800 (fill_empty_text d) = doc_line_800 d := by
    intro d
    unfold doc_line_800 doc_excerpt fill_empty_text
    cases h : d.full_text <;> simp [h]
  have hmap : ∀ l : List Document,
      (l.map fill_empty_text).map doc_line_800 = l.map doc_line_800 := by
    intro l
    rw [List.map_map]
    exact List.map_congr_left (fun a _ => hline a)
  refine ⟨?_, ?_, ?_⟩
  · intro d h
    unfold doc_excerpt
    rw [h]
    rfl
  · intro d
    unfold doc_excerpt py_slice
    show (List.take 800 (d.full_text.getD "").data).length ≤ 800
    exact List.length_take_le _ _
  · intro c dA dB aA aB pv r
    unfold build_verdict_with_arguments_prompt
    rw [hmap, hmap]

/-- Witness for C10 at a concrete NULL-text document. -/
theorem argument_prompt_null_safe_witness :
    doc_excerpt sample_null_doc = "" ∧
    (doc_excerpt sample_null_doc).length ≤ 800 ∧
    build_verdict_with_arguments_prompt demo_created
        ([sample_null_doc].map fill_empty_text) [] [] [] none 1 =
      build_verdict_with_arguments_prompt demo_created [sample_null_doc] [] [] [] none 1 :=
  ⟨argument_prompt_null_safe.1 sample_null_doc rfl,
   argument_prompt_null_safe.2.1 sample_null_doc,
   argument_prompt_null_safe.2.2 demo_created [sample_null_doc] [] [] [] none 1⟩

end Vaquill
